import Mathlib

/-!
# Verification of the ActionFigureTracker ImageServer search-aggregation core

A shallow embedding of `src/ImageServer/app.py` (the live-serving core described
by the specification): the TTL-bounded catalog cache (`fetch_visual_guide`,
`refresh_cache`), the matcher/ranker (`search_actionfigure411` with its helper
`is_wrong_character` and `relevance_score`), the point-lookup adapter boundary
(`fetch_mcfarlane_product_page`, `mcfarlane_product`), and the aggregator's final
URL-level deduplication (`search_images`).

Modelling conventions:
* Python dicts for figure entries become the structure `Fig`; the three internal
  ranking keys `_priority`, `_match_count`, `_full_match` (present only while a
  dict carries them) become `Option`-valued fields `priority`, `matchCount`,
  `fullMatch`, with `none` meaning "key absent".
* Network I/O is abstracted as an explicit outcome parameter: a bulk fetch either
  raises (`none`) or yields the parsed raw entry list (`some raw`); a point
  lookup either raises (`PageOutcome.exn`) or completes with whatever the
  extraction strategies recovered (`PageOutcome.ok`).  The HTML-extraction
  heuristics themselves are out of scope per the specification (§1), so the
  parsed lists are parameters, not recomputed here.
* `time.time()` timestamps are modelled as integers (seconds).
* In-place mutation of the shared cached dicts by the ranker is modelled by an
  explicit post-state function (`rankPost`, `searchCachePost`): Python's
  `results` list holds references to the very dict objects stored in the cache,
  so the final `pop` pass strips those shared objects, while candidates that
  were never appended to `results` keep whatever keys the pass added to them.
-/

/-- One image candidate, as produced by a source adapter
(the dicts built in `app.py`: keys `url`, `title`, `source`, `source_icon`,
plus the transient ranking keys `_priority`, `_match_count`, `_full_match`
modelled as `Option` fields where `none` means "key absent"). -/
structure Fig where
  url : String
  title : String
  source : String
  sourceIcon : String
  priority : Option Nat := none
  matchCount : Option Nat := none
  fullMatch : Option Bool := none
deriving Repr, DecidableEq

/-- One cache record: `CACHE[guide] = {'data': [...], 'timestamp': t}` (app.py line 59). -/
structure Snapshot where
  data : List Fig
  timestamp : Int
deriving Repr, DecidableEq

/-- `CACHE_TTL = 3600` (app.py line 31). -/
def CACHE_TTL : Int := 3600

/-- The seven bulk visual guides (the keys of `VISUAL_GUIDES`, app.py lines 34-44). -/
inductive Guide where
  | multiverse
  | pagePunchers
  | retro66
  | superPowers
  | batmanAnimated
  | motuOrigins
  | motuMasterverse
deriving Repr, DecidableEq

/-- The guides in `VISUAL_GUIDES` insertion order (Python dict iteration order). -/
def allGuides : List Guide :=
  [.multiverse, .pagePunchers, .retro66, .superPowers, .batmanAnimated,
   .motuOrigins, .motuMasterverse]

/-- `VISUAL_GUIDES` (app.py lines 34-44): the fixed listing URL of each guide. -/
def guideURL : Guide → String
  | .multiverse => "https://www.actionfigure411.com/dc/multiverse-visual-guide.php"
  | .pagePunchers => "https://www.actionfigure411.com/dc/page-punchers-visual-guide.php"
  | .retro66 => "https://www.actionfigure411.com/dc/retro-66-visual-guide.php"
  | .superPowers => "https://www.actionfigure411.com/dc/mcfarlane-super-powers-visual-guide.php"
  | .batmanAnimated => "https://www.actionfigure411.com/dc/batman-animated-series-visual-guide.php"
  | .motuOrigins => "https://www.actionfigure411.com/masters-of-the-universe/origins-visual-guide.php"
  | .motuMasterverse => "https://www.actionfigure411.com/masters-of-the-universe/masterverse-visual-guide.php"

/-- `LINE_TO_GUIDES` (app.py lines 47-55): iOS line name → preferred guides. -/
def lineToGuides : String → Option (List Guide)
  | "DC Multiverse" => some [.multiverse]
  | "DC Page Punchers" => some [.pagePunchers]
  | "DC Super Powers" => some [.superPowers]
  | "DC Retro" => some [.retro66, .batmanAnimated]
  | "DC Direct" => some [.multiverse]
  | "MOTU Origins" => some [.motuOrigins]
  | "MOTU Masterverse" => some [.motuMasterverse]
  | _ => none

/-! ## String primitives

Python's `str.lower()` / `str.strip()` / `str.startswith` / `in`, modelled over
character lists (ASCII, which covers all strings these code paths handle). -/

/-- Python `s.lower()` (ASCII). -/
def lowerStr (s : String) : String := (s.toList.map Char.toLower).asString

/-- Python `s.strip()`: whitespace removed from both ends. -/
def stripStr (s : String) : String :=
  ((s.toList.dropWhile Char.isWhitespace).reverse.dropWhile Char.isWhitespace).reverse.asString

/-- `needle` is an initial segment of `hay`. -/
def startsWithChars : List Char → List Char → Bool
  | [], _ => true
  | _ :: _, [] => false
  | c :: cs, d :: ds => c = d && startsWithChars cs ds

/-- Python `s.startswith(pre)`. -/
def strStartsWith (s pre : String) : Bool := startsWithChars pre.toList s.toList

/-- Python's substring test `needle in hay` on character lists. -/
def hasSubstr : List Char → List Char → Bool
  | n, [] => n = ([] : List Char)
  | n, c :: cs => startsWithChars n (c :: cs) || hasSubstr n cs

/-! ## Per-guide snapshot deduplication (app.py lines 160-167)

Inside a successful bulk fetch, before the snapshot is committed:
keep an entry only if its lower-cased title was not seen yet AND its `url`
is non-empty; the seen-set grows only when an entry is kept. -/

/-- Worker for `dedupGuide`; `seen` is the set of already-kept lower-cased titles. -/
def dedupGuideAux : List String → List Fig → List Fig
  | _, [] => []
  | seen, r :: rest =>
    let key := lowerStr r.title
    if key ∉ seen ∧ r.url ≠ "" then
      r :: dedupGuideAux (key :: seen) rest
    else
      dedupGuideAux seen rest

/-- The `seen`/`unique_results` pass of `fetch_visual_guide` (app.py lines 160-167). -/
def dedupGuide (rs : List Fig) : List Fig := dedupGuideAux [] rs

/-! ## Catalog cache: `fetch_visual_guide` (app.py lines 62-177)

The network fetch+parse is abstracted as `outcome`: `some raw` means the
request and parsing completed and produced the raw result list (lines 80-158);
`none` means any exception was raised (network error, non-2xx via
`raise_for_status`, parse crash), landing in the handler of lines 175-177. -/

/-- What one `fetch_visual_guide` call returns and leaves behind:
the returned entry list, the snapshot stored in `CACHE[guide]` afterwards,
and whether the source adapter was invoked (i.e. `requests.get` was reached). -/
structure GetResult where
  entries : List Fig
  snap : Snapshot
  didFetch : Bool
deriving Repr, DecidableEq

/-- `fetch_visual_guide` for a known guide id (app.py lines 62-177).
Cache hit requires non-empty cached data (Python truthiness of
`cache_entry.get('data')`) AND freshness; otherwise the adapter runs:
on success the deduplicated results replace the snapshot, on failure the
previous snapshot is left in place and its (possibly empty) data returned. -/
def fetchVisualGuide (snap : Snapshot) (now : Int) (outcome : Option (List Fig)) :
    GetResult :=
  if snap.data ≠ [] ∧ now - snap.timestamp < CACHE_TTL then
    { entries := snap.data, snap := snap, didFetch := false }
  else
    match outcome with
    | some raw =>
      let u := dedupGuide raw
      { entries := u, snap := { data := u, timestamp := now }, didFetch := true }
    | none =>
      { entries := snap.data, snap := snap, didFetch := true }

/-- `POST /api/refresh-cache` (app.py lines 546-562): the handler REPLACES the
whole global `CACHE` by fresh empty records (`{'data': [], 'timestamp': 0}`)
and only then fetches every guide in `VISUAL_GUIDES` order, collecting counts.
The prior cache contents (`oldCache`) are discarded unconditionally. -/
def refreshCache (_oldCache : Guide → Snapshot) (now : Int)
    (outcomes : Guide → Option (List Fig)) :
    (Guide → Snapshot) × List (Guide × Nat) :=
  let cleared : Guide → Snapshot := fun _ => { data := [], timestamp := 0 }
  allGuides.foldl
    (fun st g =>
      let r := fetchVisualGuide (st.1 g) now (outcomes g)
      (fun g' => if g' = g then r.snap else st.1 g', st.2 ++ [(g, r.entries.length)]))
    (cleared, [])

/-! ## Aggregator final deduplication: `search_images` (app.py lines 510-517)

Over the merged result list (concatenation of the per-adapter partial results,
in whatever order the futures completed): keep a result only if its `url` is
non-empty and not seen before; the seen-set grows only when a result is kept. -/

/-- Worker for `dedupByURL`; `seen` is the set of already-kept URLs. -/
def dedupByURLAux : List String → List Fig → List Fig
  | _, [] => []
  | seen, r :: rest =>
    if r.url ≠ "" ∧ r.url ∉ seen then
      r :: dedupByURLAux (r.url :: seen) rest
    else
      dedupByURLAux seen rest

/-- The final cross-source URL dedup pass of the `/api/search` handler
(app.py lines 510-517), applied to the merged list `all_results`. -/
def dedupByURL (rs : List Fig) : List Fig := dedupByURLAux [] rs

/-! ## Point lookup: `fetch_mcfarlane_product_page` and `/api/mcfarlane-product`
(app.py lines 333-436 and 526-543)

The extraction pipeline (og:image, img tags, JSON script blocks, inline-script
URL sweep) is out of scope per the specification; what matters for the claims
is the control flow around it, abstracted by `PageOutcome`:
`ok title images` = the request and the whole extraction completed (possibly
with zero images) and the function returned `{'title': ..., 'images': [...]}`
WITHOUT an `'error'` key; `exn msg` = an exception was raised and one of the
two handlers (lines 431-436) returned `{'title': '', 'images': [], 'error': str(e)}`. -/

inductive PageOutcome where
  | ok (title : String) (images : List String)
  | exn (msg : String)
deriving Repr, DecidableEq

/-- The dict returned by `fetch_mcfarlane_product_page`; `error = none` models
the `'error'` key being absent. -/
structure ProductResult where
  title : String
  images : List String
  error : Option String
deriving Repr, DecidableEq

/-- `fetch_mcfarlane_product_page` (app.py lines 333-436).  The allow-list guard
(lines 339-340) runs BEFORE any network access: a URL that does not start with
`https://mcfarlane.com/` yields the error dict irrespective of `outcome`. -/
def fetchMcfarlaneProductPage (productURL : String) (outcome : PageOutcome) :
    ProductResult :=
  if ¬ (strStartsWith (stripStr productURL) "https://mcfarlane.com/" = true) then
    { title := "", images := [], error := some "URL must be https://mcfarlane.com/..." }
  else
    match outcome with
    | .ok t imgs => { title := t, images := imgs, error := none }
    | .exn e => { title := "", images := [], error := some e }

/-- The `GET /api/mcfarlane-product` handler (app.py lines 526-543):
missing/blank `url` → 400; otherwise the fetch result is returned with
status 422 when the `'error'` value is truthy (a non-empty string) and
`images` is empty, else 200 with the `'error'` key filtered out. -/
def mcfarlaneProduct (urlParam : String) (outcome : PageOutcome) :
    Nat × ProductResult :=
  let u := stripStr urlParam
  if u = "" then
    (400, { title := "", images := [],
            error := some "Query parameter \"url\" is required" })
  else
    let r := fetchMcfarlaneProductPage u outcome
    if r.error.getD "" ≠ "" ∧ r.images = [] then (422, r)
    else (200, { r with error := none })

/-! ## Text normalization (app.py lines 212-216, 224, 241-242)

`re.findall(r'\w+', s)` over lower-cased text: maximal runs of word characters.
(Python's `\w` is Unicode-aware; the titles and queries involved are ASCII, and
the ASCII classifier is used here.) -/

/-- A `\w` character: letter, digit or underscore (ASCII). -/
def isWordChar (c : Char) : Bool := c.isAlphanum || c = '_'

/-- Worker for `tokenize`: `cur` is the reversed current run of word chars. -/
def tokenizeAux : List Char → List Char → List String
  | [], cur => if cur = [] then [] else [cur.reverse.asString]
  | c :: cs, cur =>
    if isWordChar c then
      tokenizeAux cs (c :: cur)
    else if cur = [] then
      tokenizeAux cs []
    else
      cur.reverse.asString :: tokenizeAux cs []

/-- `re.findall(r'\w+', s)`: the maximal word-character runs of `s`, in order. -/
def tokenize (s : String) : List String := tokenizeAux s.toList []

/-- The filler words removed from the query token set (app.py line 216). -/
def stopWords : List String :=
  ["dc", "multiverse", "the", "of", "and", "a", "an", "mcfarlane", "page", "punchers"]

/-- `query_words` (app.py lines 214-216): the set of tokens of the lower-cased,
stripped query, minus the stop words.  Modelled as a duplicate-free list (only
membership and cardinality of the set are ever used). -/
def queryWords (query : String) : List String :=
  ((tokenize (stripStr (lowerStr query))).dedup).filter (fun w => ¬ (w ∈ stopWords))

/-- `len(query_words & title_words)` (app.py lines 242-244): the number of
distinct tokens shared by the (stop-word-filtered) query set and the title. -/
def matchCountOf (qws : List String) (titleLower : String) : Nat :=
  let tws := tokenize titleLower
  (qws.filter (fun w => w ∈ tws)).length

/-! ## Flash-identity disambiguation (app.py lines 220-238) -/

/-- Tokens identifying the Jay Garrick identity (app.py lines 225, 228). -/
def hasJay (ws : List String) : Bool := ws.contains "jay" || ws.contains "garrick"

/-- Tokens identifying the Barry Allen identity (app.py lines 226, 229). -/
def hasBarry (ws : List String) : Bool := ws.contains "barry" || ws.contains "allen"

/-- Tokens identifying the Wally West identity (app.py lines 227, 230). -/
def hasWally (ws : List String) : Bool := ws.contains "wally" || ws.contains "west"

/-- `is_wrong_character(query_words, title_lower)` (app.py lines 222-238):
reject when the query names one Flash identity, the title names a different
one, and the title carries neither token of the queried identity. -/
def isWrongCharacter (qws : List String) (titleLower : String) : Bool :=
  let tws := tokenize titleLower
  (hasJay qws && (hasBarry tws || hasWally tws) && !hasJay tws) ||
  (hasBarry qws && (hasJay tws || hasWally tws) && !hasBarry tws) ||
  (hasWally qws && (hasJay tws || hasBarry tws) && !hasWally tws)

/-! ## `difflib.SequenceMatcher` ratio (used at app.py line 262)

`SequenceMatcher(None, a, b).ratio()` with no junk predicate.  The `autojunk`
heuristic only activates for `len(b) >= 200`, far beyond the head segments
compared here, so it is not modelled; with no junk the post-DP extension loops
of `find_longest_match` cannot extend the maximal block and are no-ops.
The comparison `ratio() > 0.7` is decided exactly over the rationals:
`2*T/(la+lb) > 7/10  ↔  20*T > 7*(la+lb)` (for the string lengths involved the
double-precision rounding of Python cannot flip this comparison). -/

/-- `j2len.get(j, 0)` over the association list representing the dict. -/
def lookupJ (l : List (Nat × Nat)) (j : Nat) : Nat := (l.lookup j).getD 0

/-- One row (fixed `i`) of the `find_longest_match` dynamic program:
for each `j` in `[blo, bhi)` with `b[j] = a[i]` (ascending, as `b2j` stores
ascending indices), set `k = j2len[j-1] + 1` and update the best block on
strict improvement.  Returns the new `j2len` row and the best triple. -/
def flmRow (b : List Char) (blo bhi : Nat) (ai : Char) (i : Nat)
    (j2len : List (Nat × Nat)) (best : Nat × Nat × Nat) :
    List (Nat × Nat) × (Nat × Nat × Nat) :=
  let js := (List.range' blo (bhi - blo)).filter (fun j => b.getD j (Char.ofNat 0) = ai)
  js.foldl
    (fun acc j =>
      let k := (if j = 0 then 0 else lookupJ j2len (j - 1)) + 1
      let best' :=
        if k > acc.2.2.2 then (i + 1 - k, j + 1 - k, k) else acc.2
      ((j, k) :: acc.1, best'))
    ([], best)

/-- `find_longest_match(alo, ahi, blo, bhi)` (difflib, no junk):
the longest block `(i, j, k)` with `a[i:i+k] = b[j:j+k]` inside the window,
with difflib's tie-breaking (first strict improvement wins). -/
def findLongestMatch (a b : List Char) (alo ahi blo bhi : Nat) : Nat × Nat × Nat :=
  let final := (List.range' alo (ahi - alo)).foldl
    (fun st i => flmRow b blo bhi (a.getD i (Char.ofNat 0)) i st.1 st.2)
    (([] : List (Nat × Nat)), (alo, blo, 0))
  final.2

/-- Total size `T` of the matching blocks (`get_matching_blocks` recursion:
longest block, then recurse left and right of it).  `fuel` bounds the
recursion depth; `matchTotal` is always called with fuel exceeding the
windows' total size, which bounds the true depth. -/
def matchTotal (a b : List Char) : Nat → Nat × Nat → Nat × Nat → Nat
  | 0, _, _ => 0
  | fuel + 1, (alo, ahi), (blo, bhi) =>
    let r := findLongestMatch a b alo ahi blo bhi
    let i := r.1
    let j := r.2.1
    let k := r.2.2
    if k = 0 then 0
    else
      matchTotal a b fuel (alo, i) (blo, j) + k +
        matchTotal a b fuel (i + k, ahi) (j + k, bhi)

/-- `SequenceMatcher(None, a, b).ratio() > 0.7`, decided exactly. -/
def seqRatioGT (a b : String) : Bool :=
  let la := a.length
  let lb := b.length
  let t := matchTotal a.toList b.toList (la + lb + 1) (0, la) (0, lb)
  20 * t > 7 * (la + lb)

/-- `re.split(r'\s*[\(\-]', s)[0].strip()` (app.py lines 259-260): the text
before the first `(` or `-`, with surrounding whitespace stripped. -/
def headSegment (s : String) : String :=
  stripStr ((s.toList.takeWhile (fun c => c ≠ '(' ∧ c ≠ '-')).asString)

/-! ## The matcher/ranker: `search_actionfigure411` (app.py lines 180-284) -/

/-- The per-candidate inclusion step of the matching loop (app.py lines 240-266),
applied to one (already priority-tagged) figure.  `none` = the candidate is
skipped (`continue` on wrong character, or no branch includes it);
`some f'` = the candidate is appended to `results` with the internal keys
`_match_count` / `_full_match` set as the code sets them. -/
def includeStep (queryLower : String) (qws : List String) (f : Fig) : Option Fig :=
  let title := lowerStr f.title
  if isWrongCharacter qws title then none
  else
    let mc := matchCountOf qws title
    let fullSub := hasSubstr queryLower.toList title.toList
    if fullSub ∨ mc ≥ 1 then
      some { f with matchCount := some (if fullSub then qws.length else mc),
                    fullMatch := some fullSub }
    else
      let queryChar := headSegment queryLower
      let charName := headSegment title
      if charName ≠ "" ∧ queryChar ≠ "" ∧ qws.length ≤ 2 ∧
          seqRatioGT queryChar charName then
        some { f with matchCount := some 1, fullMatch := some false }
      else none

/-- `relevance_score(fig)` (app.py lines 269-274), with the dict-lookup
defaults `_priority → 1`, `_match_count → 0`, `_full_match → False`. -/
def scoreOf (f : Fig) : Int × Int × Int :=
  (-(f.matchCount.getD 0 : Int),
   if f.fullMatch.getD false then 0 else 1,
   (f.priority.getD 1 : Int))

/-- Strict lexicographic order on score triples (Python tuple `<`). -/
def tripleLT (a b : Int × Int × Int) : Bool :=
  if a.1 < b.1 then true
  else if b.1 < a.1 then false
  else if a.2.1 < b.2.1 then true
  else if b.2.1 < a.2.1 then false
  else decide (a.2.2 < b.2.2)

/-- Insert `f` into `l` before the first element NOT strictly smaller:
the insertion step of a stable ascending sort by `scoreOf`. -/
def insertRanked (f : Fig) : List Fig → List Fig
  | [] => [f]
  | g :: gs =>
    if tripleLT (scoreOf g) (scoreOf f) then g :: insertRanked f gs
    else f :: g :: gs

/-- `results.sort(key=relevance_score)` (app.py line 276): stable ascending
sort by the score triple (Python's sort is stable; this insertion sort computes
the same list). -/
def sortRanked : List Fig → List Fig
  | [] => []
  | f :: fs => insertRanked f (sortRanked fs)

/-- The `fig.pop('_priority', None); fig.pop('_match_count', None);
fig.pop('_full_match', None)` pass (app.py lines 279-282) on one dict. -/
def stripInternal (f : Fig) : Fig :=
  { f with priority := none, matchCount := none, fullMatch := none }

/-- Lines 240-284 of `search_actionfigure411` as a function of the assembled,
priority-tagged candidate list: match, sort, strip every result, return the
first 40. -/
def rankOutput (queryLower : String) (qws : List String) (figs : List Fig) :
    List Fig :=
  ((sortRanked (figs.filterMap (includeStep queryLower qws))).map stripInternal).take 40

/-- The post-state of the candidate dicts after the same pass.  In Python the
`results` list holds references to the cached dicts, so the strip pass of lines
279-282 mutates exactly the included candidates (all of `results`, before the
`[:40]` slice); a candidate that was never appended keeps its keys — in
particular the `_priority` key set at line 205. -/
def rankPost (queryLower : String) (qws : List String) (figs : List Fig) :
    List Fig :=
  figs.map (fun f =>
    if (includeStep queryLower qws f).isSome then stripInternal f else f)

/-- `0 if line and guide_type in LINE_TO_GUIDES.get(line, []) else 1`
(app.py line 205). -/
def priorityOf (line : String) (g : Guide) : Nat :=
  if line ≠ "" ∧ g ∈ ((lineToGuides line).getD []) then 0 else 1

/-- `guide_order` (app.py lines 189-197): preferred guides of a known line
first, then the rest in `VISUAL_GUIDES` order; all guides in dict order
otherwise. -/
def guideOrder (line : String) : List Guide :=
  if line ≠ "" then
    match lineToGuides line with
    | some pg => pg ++ allGuides.filter (fun g => ¬ (g ∈ pg))
    | none => allGuides
  else allGuides

/-- `all_figures` (app.py lines 200-206): each guide's cached entries in guide
order, every figure tagged with its `_priority`. -/
def assembleFigures (line : String) (fetched : Guide → List Fig) : List Fig :=
  (guideOrder line).flatMap (fun g =>
    (fetched g).map (fun f => { f with priority := some (priorityOf line g) }))

/-- `search_actionfigure411(query, line)` (app.py lines 180-284), as a function
of the per-guide entry lists the cache serves (`fetch_visual_guide` results).
Empty candidate set → early `return []` (line 210). -/
def searchActionfigure411 (query line : String) (fetched : Guide → List Fig) :
    List Fig :=
  let allFigures := assembleFigures line fetched
  if allFigures = [] then []
  else rankOutput (stripStr (lowerStr query)) (queryWords query) allFigures

/-- The cached per-guide entry lists after one `search_actionfigure411` call:
every candidate was tagged with `_priority` (line 205, mutating the shared
dicts); included candidates were stripped of all internal keys (lines 279-282);
excluded candidates keep the `_priority` tag. -/
def searchCachePost (query line : String) (fetched : Guide → List Fig) :
    Guide → List Fig :=
  fun g =>
    if assembleFigures line fetched = [] then fetched g
    else
      rankPost (stripStr (lowerStr query)) (queryWords query)
        ((fetched g).map (fun f => { f with priority := some (priorityOf line g) }))

/-- From the claim's words (C4), NOT from the code: the claimed ranking key
`(-tokenOverlapCount, 0 if full-match else 1, catalogPriority)`, where
`tokenOverlapCount` is the token overlap between query and title. -/
def specScoreOf (queryLower : String) (qws : List String) (f : Fig) :
    Int × Int × Int :=
  let title := lowerStr f.title
  (-(matchCountOf qws title : Int),
   if hasSubstr queryLower.toList title.toList then 0 else 1,
   (f.priority.getD 1 : Int))

/-! ## Concrete sample data used by witnesses and counterexamples -/

/-- A representative cached entry. -/
def sampleBatman : Fig :=
  { url := "https://www.actionfigure411.com/dc/images/batman-1.jpg",
    title := "DC Multiverse Batman", source := "ActionFigure411",
    sourceIcon := "star.fill" }

/-- `Batman (Flashpoint)` — the candidate of the full-phrase-preference example. -/
def sampleFlashpoint : Fig :=
  { url := "https://www.actionfigure411.com/dc/images/batman-flashpoint-2.jpg",
    title := "Batman (Flashpoint)", source := "ActionFigure411",
    sourceIcon := "star.fill" }

/-- `Batman Beyond` — the other candidate of that example. -/
def sampleBeyond : Fig :=
  { url := "https://www.actionfigure411.com/dc/images/batman-beyond-3.jpg",
    title := "Batman Beyond", source := "ActionFigure411", sourceIcon := "star.fill" }

/-- A title containing the full query `batman flashpoint` as a substring while
sharing zero TOKENS with it (the word runs are `abatman` and `flashpointy`). -/
def sampleGlued : Fig :=
  { url := "https://www.actionfigure411.com/dc/images/abatman-4.jpg",
    title := "abatman flashpointy", source := "ActionFigure411",
    sourceIcon := "star.fill" }

/-- A Jay Garrick entry. -/
def sampleJay : Fig :=
  { url := "https://www.actionfigure411.com/dc/images/flash-jay-5.jpg",
    title := "The Flash (Jay Garrick)", source := "ActionFigure411",
    sourceIcon := "star.fill" }

/-- A Barry Allen entry. -/
def sampleBarry : Fig :=
  { url := "https://www.actionfigure411.com/dc/images/flash-barry-6.jpg",
    title := "The Flash (Barry Allen)", source := "ActionFigure411",
    sourceIcon := "star.fill" }

/-- An entry unrelated to the query `aaa bbb ccc`. -/
def sampleZzz : Fig :=
  { url := "https://www.actionfigure411.com/dc/images/zzz-7.jpg",
    title := "zzz", source := "ActionFigure411", sourceIcon := "star.fill" }

/-- A Google-search duplicate of `sampleBatman`: same image URL, different
title and source. -/
def sampleBatmanDup : Fig :=
  { url := "https://www.actionfigure411.com/dc/images/batman-1.jpg",
    title := "batman - Google Image", source := "Google",
    sourceIcon := "magnifyingglass" }

/-- An entry still in the "name known, image not yet resolved" state. -/
def sampleNoImage : Fig :=
  { url := "", title := "DC Multiverse Azrael", source := "ActionFigure411",
    sourceIcon := "star.fill" }

/-! ## Order-theoretic facts about the ranking key -/

theorem tripleLT_iff (a b : Int × Int × Int) :
    tripleLT a b = true ↔
      a.1 < b.1 ∨ (a.1 = b.1 ∧ (a.2.1 < b.2.1 ∨ (a.2.1 = b.2.1 ∧ a.2.2 < b.2.2))) := by
  obtain ⟨a1, a2, a3⟩ := a
  obtain ⟨b1, b2, b3⟩ := b
  simp only [tripleLT]
  split_ifs <;> simp <;> omega

theorem tripleLT_irrefl (a : Int × Int × Int) : tripleLT a a = false := by
  obtain ⟨a1, a2, a3⟩ := a
  simp [tripleLT]

theorem tripleLT_asymm {a b : Int × Int × Int} (h : tripleLT a b = true) :
    tripleLT b a = false := by
  rw [tripleLT_iff] at h
  rw [Bool.eq_false_iff, Ne, tripleLT_iff]
  obtain ⟨a1, a2, a3⟩ := a
  obtain ⟨b1, b2, b3⟩ := b
  simp_all only []
  omega

theorem tripleLT_false_trans {a b c : Int × Int × Int}
    (h1 : tripleLT b a = false) (h2 : tripleLT c b = false) :
    tripleLT c a = false := by
  rw [Bool.eq_false_iff, Ne, tripleLT_iff] at h1 h2 ⊢
  obtain ⟨a1, a2, a3⟩ := a
  obtain ⟨b1, b2, b3⟩ := b
  obtain ⟨c1, c2, c3⟩ := c
  simp_all only []
  omega

/-! ## The insertion sort computes a stable ascending sort by `scoreOf` -/

theorem insertRanked_perm (f : Fig) (l : List Fig) :
    (insertRanked f l).Perm (f :: l) := by
  induction l with
  | nil => simp [insertRanked]
  | cons g gs ih =>
    rw [insertRanked]
    split
    · exact (ih.cons g).trans (List.Perm.swap f g gs)
    · exact List.Perm.refl _

theorem sortRanked_perm (l : List Fig) : (sortRanked l).Perm l := by
  induction l with
  | nil => exact List.Perm.refl _
  | cons f fs ih =>
    exact (insertRanked_perm f (sortRanked fs)).trans (ih.cons f)

theorem mem_insertRanked {r f : Fig} {l : List Fig} :
    r ∈ insertRanked f l ↔ r = f ∨ r ∈ l := by
  rw [(insertRanked_perm f l).mem_iff, List.mem_cons]

theorem insertRanked_pairwise {f : Fig} {l : List Fig}
    (h : l.Pairwise (fun x y => tripleLT (scoreOf y) (scoreOf x) = false)) :
    (insertRanked f l).Pairwise (fun x y => tripleLT (scoreOf y) (scoreOf x) = false) := by
  induction l with
  | nil => simp [insertRanked]
  | cons g gs ih =>
    rw [List.pairwise_cons] at h
    obtain ⟨hg, hgs⟩ := h
    rw [insertRanked]
    split
    case isTrue hlt =>
      rw [List.pairwise_cons]
      refine ⟨fun x hx => ?_, ih hgs⟩
      rcases mem_insertRanked.mp hx with hxf | hxl
      · subst hxf; exact tripleLT_asymm hlt
      · exact hg x hxl
    case isFalse hlt =>
      have hfg : tripleLT (scoreOf g) (scoreOf f) = false := by
        revert hlt
        cases tripleLT (scoreOf g) (scoreOf f) <;> simp
      rw [List.pairwise_cons]
      refine ⟨fun x hx => ?_, List.pairwise_cons.mpr ⟨hg, hgs⟩⟩
      rcases List.mem_cons.mp hx with hxg | hxl
      · subst hxg; exact hfg
      · exact tripleLT_false_trans hfg (hg x hxl)

theorem sortRanked_pairwise (l : List Fig) :
    (sortRanked l).Pairwise (fun x y => tripleLT (scoreOf y) (scoreOf x) = false) := by
  induction l with
  | nil => simp [sortRanked]
  | cons f fs ih => exact insertRanked_pairwise ih

theorem filter_insertRanked_pos {f : Fig} {s : Int × Int × Int} (l : List Fig)
    (hf : scoreOf f = s) :
    (insertRanked f l).filter (fun x => decide (scoreOf x = s))
      = f :: l.filter (fun x => decide (scoreOf x = s)) := by
  induction l with
  | nil => simp [insertRanked, hf]
  | cons g gs ih =>
    rw [insertRanked]
    split
    case isTrue hlt =>
      have hg : ¬ (scoreOf g = s) := by
        intro he
        rw [he, ← hf] at hlt
        rw [tripleLT_irrefl] at hlt
        exact Bool.false_ne_true hlt
      simp only [List.filter_cons, decide_eq_true_eq, hg, if_false, ih]
    case isFalse hlt =>
      simp only [List.filter_cons, decide_eq_true_eq, hf, if_true]

theorem filter_insertRanked_neg {f : Fig} {s : Int × Int × Int} (l : List Fig)
    (hf : ¬ (scoreOf f = s)) :
    (insertRanked f l).filter (fun x => decide (scoreOf x = s))
      = l.filter (fun x => decide (scoreOf x = s)) := by
  induction l with
  | nil => simp [insertRanked, hf]
  | cons g gs ih =>
    rw [insertRanked]
    split
    · simp only [List.filter_cons, ih]
    · simp only [List.filter_cons, decide_eq_true_eq, hf, if_false]

theorem sortRanked_stable (l : List Fig) (s : Int × Int × Int) :
    (sortRanked l).filter (fun x => decide (scoreOf x = s))
      = l.filter (fun x => decide (scoreOf x = s)) := by
  induction l with
  | nil => rfl
  | cons f fs ih =>
    rw [sortRanked]
    by_cases hf : scoreOf f = s
    · rw [filter_insertRanked_pos _ hf, ih, List.filter_cons]
      simp [hf]
    · rw [filter_insertRanked_neg _ hf, ih, List.filter_cons]
      simp [hf]

/-! ## What inclusion in the ranked output implies -/

theorem includeStep_some {ql : String} {qws : List String} {f g : Fig}
    (h : includeStep ql qws f = some g) :
    g.title = f.title ∧ g.url = f.url ∧ g.source = f.source ∧
      g.sourceIcon = f.sourceIcon ∧ g.priority = f.priority ∧
      isWrongCharacter qws (lowerStr f.title) = false := by
  unfold includeStep at h
  dsimp only at h
  split at h
  case isTrue h1 => exact absurd h (by simp)
  case isFalse h1 =>
    have hw : isWrongCharacter qws (lowerStr f.title) = false := by
      revert h1
      cases isWrongCharacter qws (lowerStr f.title) <;> simp
    split at h
    · cases h
      exact ⟨rfl, rfl, rfl, rfl, rfl, hw⟩
    · split at h
      · cases h
        exact ⟨rfl, rfl, rfl, rfl, rfl, hw⟩
      · exact absurd h (by simp)

theorem mem_rankOutput {ql : String} {qws : List String} {figs : List Fig} {r : Fig}
    (hr : r ∈ rankOutput ql qws figs) :
    ∃ f g, f ∈ figs ∧ includeStep ql qws f = some g ∧ r = stripInternal g := by
  rw [rankOutput] at hr
  have h1 : r ∈ (sortRanked (figs.filterMap (includeStep ql qws))).map stripInternal :=
    (List.take_sublist 40 _).subset hr
  rw [List.mem_map] at h1
  obtain ⟨g, hg, hrg⟩ := h1
  rw [(sortRanked_perm _).mem_iff, List.mem_filterMap] at hg
  obtain ⟨f, hf, hfg⟩ := hg
  exact ⟨f, g, hf, hfg, hrg.symm⟩

theorem mem_searchActionfigure411 {query line : String} {fetched : Guide → List Fig}
    {r : Fig} (hr : r ∈ searchActionfigure411 query line fetched) :
    ∃ f g, f ∈ assembleFigures line fetched ∧
      includeStep (stripStr (lowerStr query)) (queryWords query) f = some g ∧
      r = stripInternal g := by
  rw [searchActionfigure411] at hr
  split at hr
  · exact absurd hr (by simp)
  · exact mem_rankOutput hr

/-- Unfolding of the `is_wrong_character` guard: an entry that survived it can
identify a different Flash only if it also carries a token of the queried one. -/
theorem wrongChar_false_spec {qws : List String} {title : String}
    (h : isWrongCharacter qws title = false) :
    (hasJay qws = true → hasJay (tokenize title) = false →
       hasBarry (tokenize title) = false ∧ hasWally (tokenize title) = false) ∧
    (hasBarry qws = true → hasBarry (tokenize title) = false →
       hasJay (tokenize title) = false ∧ hasWally (tokenize title) = false) ∧
    (hasWally qws = true → hasWally (tokenize title) = false →
       hasJay (tokenize title) = false ∧ hasBarry (tokenize title) = false) := by
  revert h
  simp only [isWrongCharacter]
  generalize hasJay qws = qj
  generalize hasBarry qws = qb
  generalize hasWally qws = qw
  generalize hasJay (tokenize title) = tj
  generalize hasBarry (tokenize title) = tb
  generalize hasWally (tokenize title) = tw
  cases qj <;> cases qb <;> cases qw <;> cases tj <;> cases tb <;> cases tw <;> decide

/-! ## Facts about the two URL-dedup passes -/

theorem mem_dedupByURLAux {seen : List String} {rs : List Fig} {r : Fig}
    (h : r ∈ dedupByURLAux seen rs) : r.url ≠ "" ∧ ¬ r.url ∈ seen := by
  induction rs generalizing seen with
  | nil => exact absurd h (by simp [dedupByURLAux])
  | cons x xs ih =>
    rw [dedupByURLAux] at h
    split at h
    case isTrue hc =>
      rcases List.mem_cons.mp h with hx | hx
      · subst hx; exact hc
      · have := ih hx
        refine ⟨this.1, fun hmem => this.2 (List.mem_cons.mpr (Or.inr hmem))⟩
    case isFalse hc => exact ih h

theorem nodup_dedupByURLAux (seen : List String) (rs : List Fig) :
    ((dedupByURLAux seen rs).map Fig.url).Nodup := by
  induction rs generalizing seen with
  | nil => simp [dedupByURLAux]
  | cons x xs ih =>
    rw [dedupByURLAux]
    split
    case isTrue hc =>
      simp only [List.map_cons, List.nodup_cons]
      refine ⟨fun hmem => ?_, ih _⟩
      rw [List.mem_map] at hmem
      obtain ⟨r, hr, hru⟩ := hmem
      exact (mem_dedupByURLAux hr).2 (by rw [hru]; exact List.mem_cons_self _ _)
    case isFalse hc => exact ih _

theorem sublist_dedupByURLAux (seen : List String) (rs : List Fig) :
    (dedupByURLAux seen rs).Sublist rs := by
  induction rs generalizing seen with
  | nil => simp [dedupByURLAux]
  | cons x xs ih =>
    rw [dedupByURLAux]
    split
    · exact (ih _).cons₂ x
    · exact (ih _).cons x

theorem filter_dedupByURLAux {u : String} (hu : u ≠ "") (rs : List Fig)
    (seen : List String) :
    (¬ u ∈ seen →
       (dedupByURLAux seen rs).filter (fun r => decide (r.url = u))
         = (rs.filter (fun r => decide (r.url = u))).take 1) ∧
    (u ∈ seen →
       (dedupByURLAux seen rs).filter (fun r => decide (r.url = u)) = []) := by
  induction rs generalizing seen with
  | nil => simp [dedupByURLAux]
  | cons x xs ih =>
    constructor
    · intro hseen
      rw [dedupByURLAux]
      split
      case isTrue hc =>
        by_cases hxu : x.url = u
        · subst hxu
          have h2 := (ih (x.url :: seen)).2 (List.mem_cons_self _ _)
          rw [List.filter_cons, List.filter_cons, h2]
          simp
        · rw [List.filter_cons, List.filter_cons]
          simp only [decide_eq_true_eq, hxu, if_false]
          exact (ih (x.url :: seen)).1
            (fun hm => (List.mem_cons.mp hm).elim (fun he => hxu he.symm) hseen)
      case isFalse hc =>
        have hxu : ¬ x.url = u := by
          intro he
          exact hc ⟨by rw [he]; exact hu, by rw [he]; exact hseen⟩
        rw [List.filter_cons]
        simp only [decide_eq_true_eq, hxu, if_false]
        exact (ih seen).1 hseen
    · intro hseen
      rw [dedupByURLAux]
      split
      case isTrue hc =>
        have hxu : ¬ x.url = u := fun he => hc.2 (by rw [he]; exact hseen)
        rw [List.filter_cons]
        simp only [decide_eq_true_eq, hxu, if_false]
        exact (ih (x.url :: seen)).2 (List.mem_cons.mpr (Or.inr hseen))
      case isFalse hc => exact (ih seen).2 hseen

theorem mem_dedupGuideAux {seen : List String} {rs : List Fig} {r : Fig}
    (h : r ∈ dedupGuideAux seen rs) : r.url ≠ "" := by
  induction rs generalizing seen with
  | nil => exact absurd h (by simp [dedupGuideAux])
  | cons x xs ih =>
    rw [dedupGuideAux] at h
    split at h
    case isTrue hc =>
      rcases List.mem_cons.mp h with hx | hx
      · subst hx; exact hc.2
      · exact ih hx
    case isFalse hc => exact ih h

/-- `fetch_visual_guide` always returns exactly the data of the snapshot it
leaves behind. -/
theorem fetchVisualGuide_entries (snap : Snapshot) (now : Int)
    (outcome : Option (List Fig)) :
    (fetchVisualGuide snap now outcome).snap.data
      = (fetchVisualGuide snap now outcome).entries := by
  unfold fetchVisualGuide
  split
  · rfl
  · cases outcome <;> rfl

/-! ## Claim C1 -/

/-- Claim C1, amended: on the lazy `fetch_visual_guide` path a failed bulk fetch
retains the previous snapshot unchanged and returns its entries (whether the
TTL check hit or the fetch was attempted and raised).  The original claim also
asserted this for `POST /api/refresh-cache`, which is refuted by
`c1_refresh_discards_old_snapshot`: that handler clears every snapshot BEFORE
refetching, so a failed fetch there leaves the catalog empty. -/
theorem c1_get_failure_preserves_snapshot (snap : Snapshot) (now : Int) :
    (fetchVisualGuide snap now none).entries = snap.data ∧
    (fetchVisualGuide snap now none).snap = snap := by
  unfold fetchVisualGuide
  split
  · exact ⟨rfl, rfl⟩
  · exact ⟨rfl, rfl⟩

/-- Claim C1 counterexample: starting from a NON-empty multiverse snapshot,
`POST /api/refresh-cache` with every fetch failing leaves the multiverse
snapshot EMPTY — the previously cached entries are not retained on the
force-refresh-all path, refuting "a failed fetch never replaces a non-empty
snapshot with an empty one ... for every path". -/
theorem c1_refresh_discards_old_snapshot :
    ((refreshCache (fun _ => { data := [sampleBatman], timestamp := 50 }) 100
        (fun _ => none)).1 Guide.multiverse).data = [] ∧
    [sampleBatman] ≠ ([] : List Fig) := by decide

/-! ## Claim C5 -/

/-- Claim C5, amended: `fetch_visual_guide` serves the cached snapshot without
invoking the adapter when the snapshot is fresh (`now - fetchedAt < TTL`,
TTL = 3600) AND its data is non-empty; with an empty snapshot — however fresh —
or a stale one it fetches, and on success replaces the snapshot and returns the
new (deduplicated) entries.  The original claim, which promised no fetch for
EVERY fresh snapshot, is refuted by `c5_fresh_empty_refetches`. -/
theorem c5_get_ttl_behaviour (snap : Snapshot) (now : Int)
    (outcome : Option (List Fig)) :
    (snap.data ≠ [] → now - snap.timestamp < CACHE_TTL →
        fetchVisualGuide snap now outcome =
          { entries := snap.data, snap := snap, didFetch := false }) ∧
    ((snap.data = [] ∨ CACHE_TTL ≤ now - snap.timestamp) →
        (fetchVisualGuide snap now outcome).didFetch = true) ∧
    (∀ raw, (snap.data = [] ∨ CACHE_TTL ≤ now - snap.timestamp) →
        fetchVisualGuide snap now (some raw) =
          { entries := dedupGuide raw,
            snap := { data := dedupGuide raw, timestamp := now },
            didFetch := true }) := by
  refine ⟨fun h1 h2 => ?_, fun h => ?_, fun raw h => ?_⟩
  · unfold fetchVisualGuide
    rw [if_pos ⟨h1, h2⟩]
  · have hn : ¬ (snap.data ≠ [] ∧ now - snap.timestamp < CACHE_TTL) := by
      rcases h with h | h
      · exact fun hc => hc.1 h
      · exact fun hc => absurd hc.2 (Int.not_lt.mpr h)
    unfold fetchVisualGuide
    rw [if_neg hn]
    cases outcome <;> rfl
  · have hn : ¬ (snap.data ≠ [] ∧ now - snap.timestamp < CACHE_TTL) := by
      rcases h with h | h
      · exact fun hc => hc.1 h
      · exact fun hc => absurd hc.2 (Int.not_lt.mpr h)
    unfold fetchVisualGuide
    rw [if_neg hn]

/-- Witness for `c5_get_ttl_behaviour` at concrete inputs: a fresh non-empty
snapshot is served as-is with no fetch; a stale snapshot is refetched and
replaced. -/
theorem c5_get_ttl_behaviour_witness :
    fetchVisualGuide { data := [sampleBatman], timestamp := 0 } 100 none =
      { entries := [sampleBatman],
        snap := { data := [sampleBatman], timestamp := 0 }, didFetch := false } ∧
    fetchVisualGuide { data := [], timestamp := 5000 } 9000 (some [sampleBatman]) =
      { entries := dedupGuide [sampleBatman],
        snap := { data := dedupGuide [sampleBatman], timestamp := 9000 },
        didFetch := true } :=
  ⟨(c5_get_ttl_behaviour { data := [sampleBatman], timestamp := 0 } 100 none).1
      (by decide) (by decide),
   (c5_get_ttl_behaviour { data := [], timestamp := 5000 } 9000
      (some [sampleBatman])).2.2 [sampleBatman] (Or.inl rfl)⟩

/-- Claim C5 counterexample: a snapshot fetched at the very same instant
(`now - fetchedAt = 0 < TTL`) but with empty data IS refetched — the adapter is
invoked inside the TTL window, refuting "returns the cached entries without
invoking the source adapter" for every fresh snapshot. -/
theorem c5_fresh_empty_refetches :
    ((100 : Int) - (100 : Int) < CACHE_TTL) ∧
    (fetchVisualGuide { data := [], timestamp := 100 } 100
        (some [sampleBatman])).didFetch = true := by decide

/-! ## Claim C9 -/

/-- Claim C9, amended: two consecutive `fetch_visual_guide` calls return
identical entry lists PROVIDED the first call returns a non-empty list and the
second happens within the TTL of the snapshot the first call left behind (then
the second call is a cache hit).  Without the non-emptiness proviso the claim
fails: see `c9_two_gets_can_differ`. -/
theorem c9_second_get_hits_cache (snap : Snapshot) (t1 t2 : Int)
    (o1 o2 : Option (List Fig))
    (h1 : (fetchVisualGuide snap t1 o1).entries ≠ [])
    (h2 : t2 - (fetchVisualGuide snap t1 o1).snap.timestamp < CACHE_TTL) :
    (fetchVisualGuide (fetchVisualGuide snap t1 o1).snap t2 o2).entries
      = (fetchVisualGuide snap t1 o1).entries := by
  set r := fetchVisualGuide snap t1 o1 with hr
  have hd := fetchVisualGuide_entries snap t1 o1
  rw [← hr] at hd
  have hstep : fetchVisualGuide r.snap t2 o2 =
      { entries := r.snap.data, snap := r.snap, didFetch := false } := by
    unfold fetchVisualGuide
    rw [if_pos ⟨by rw [hd]; exact h1, h2⟩]
  rw [hstep, hd]

/-- Witness for `c9_second_get_hits_cache`: after a first get that filled the
cache at time 100, a second get at time 200 returns the same list even though
its own fetch (had it happened) would have returned nothing. -/
theorem c9_second_get_hits_cache_witness :
    (fetchVisualGuide (fetchVisualGuide { data := [sampleBatman], timestamp := 0 }
        100 none).snap 200 (some [])).entries
      = (fetchVisualGuide { data := [sampleBatman], timestamp := 0 } 100 none).entries :=
  c9_second_get_hits_cache { data := [sampleBatman], timestamp := 0 } 100 200 none
    (some []) (by decide) (by decide)

/-- Claim C9 counterexample: both gets happen at the same instant (trivially
inside one TTL window) with no force refresh in between, yet the first returns
`[]` (its fetch failed with nothing to fall back to) and the second returns one
entry (its fetch succeeded) — the two entry lists differ. -/
theorem c9_two_gets_can_differ :
    (fetchVisualGuide { data := [], timestamp := 1000 } 1000 none).entries = [] ∧
    (fetchVisualGuide (fetchVisualGuide { data := [], timestamp := 1000 } 1000 none).snap
        1000 (some [sampleBatman])).entries = [sampleBatman] ∧
    ([] : List Fig) ≠ [sampleBatman] := by decide

/-! ## Claim C2 -/

/-- Claim C2, amended: for an allow-listed URL the endpoint returns 422 exactly
when the fetch/extraction RAISED (network error, non-2xx, parse crash) — which
always comes with zero images — and 200 otherwise; a fetch that completes
normally but recovers ZERO images is answered 200 with an empty image list, not
422 (see `c2_zero_images_not_422`).  `hu` fixes the URL in trimmed form (the
handler strips the parameter before use). -/
theorem c2_status_mirrors_exception (u : String) (hu : stripStr u = u)
    (hne : u ≠ "") (hal : strStartsWith u "https://mcfarlane.com/" = true) :
    (∀ t imgs, mcfarlaneProduct u (.ok t imgs) =
        (200, { title := t, images := imgs, error := none })) ∧
    (∀ e, e ≠ "" → mcfarlaneProduct u (.exn e) =
        (422, { title := "", images := [], error := some e })) := by
  have hfetch : ∀ o, fetchMcfarlaneProductPage u o =
      match o with
      | .ok t imgs => { title := t, images := imgs, error := none }
      | .exn e => { title := "", images := [], error := some e } := by
    intro o
    unfold fetchMcfarlaneProductPage
    rw [hu, if_neg (fun hc => hc hal)]
  constructor
  · intro t imgs
    unfold mcfarlaneProduct
    dsimp only
    rw [hu, if_neg hne, hfetch (.ok t imgs)]
    dsimp only
    rw [if_neg (fun hc => hc.1 rfl)]
  · intro e he
    unfold mcfarlaneProduct
    dsimp only
    rw [hu, if_neg hne, hfetch (.exn e)]
    dsimp only
    rw [if_pos ⟨he, rfl⟩]

/-- Witness for `c2_status_mirrors_exception` at a concrete allow-listed URL:
a normal fetch gives 200 with the recovered images, a raising fetch gives 422. -/
theorem c2_status_mirrors_exception_witness :
    mcfarlaneProduct "https://mcfarlane.com/toys/x/"
        (.ok "Spawn" ["https://cdn.example/a.jpg"]) =
      (200, { title := "Spawn", images := ["https://cdn.example/a.jpg"],
              error := none }) ∧
    mcfarlaneProduct "https://mcfarlane.com/toys/x/" (.exn "connection timed out") =
      (422, { title := "", images := [], error := some "connection timed out" }) :=
  ⟨(c2_status_mirrors_exception "https://mcfarlane.com/toys/x/" (by decide)
      (by decide) (by decide)).1 "Spawn" ["https://cdn.example/a.jpg"],
   (c2_status_mirrors_exception "https://mcfarlane.com/toys/x/" (by decide)
      (by decide) (by decide)).2 "connection timed out" (by decide)⟩

/-- Claim C2 counterexample: an allow-listed URL whose fetch completes with
ZERO recovered images is answered 200 (with an empty list), not 422 —
refuting "if the fetch yields zero image URLs the response is 422". -/
theorem c2_zero_images_not_422 :
    (mcfarlaneProduct "https://mcfarlane.com/toys/flash-jay-garrick/"
        (.ok "The Flash (Jay Garrick)" [])).1 = 200 ∧
    (mcfarlaneProduct "https://mcfarlane.com/toys/flash-jay-garrick/"
        (.ok "The Flash (Jay Garrick)" [])).2.images = [] ∧
    (200 : Nat) ≠ 422 := by decide

/-! ## Claim C6 -/

/-- Claim C6, amended: a non-blank URL outside the allow-listed host prefix is
rejected WITHOUT any network access (the response does not depend on the fetch
outcome at all) — but with status 422, not 400: the guard inside
`fetch_mcfarlane_product_page` returns an error dict with no images, and the
handler maps every such dict to 422 (`400` is reserved for a missing/blank
`url` parameter).  See `c6_bad_host_status_not_400`. -/
theorem c6_bad_host_rejected_422 (u : String) (hu : stripStr u = u)
    (hne : u ≠ "") (hal : strStartsWith u "https://mcfarlane.com/" = false) :
    (∀ o, (mcfarlaneProduct u o).1 = 422) ∧
    (∀ o1 o2, mcfarlaneProduct u o1 = mcfarlaneProduct u o2) := by
  have hfetch : ∀ o, fetchMcfarlaneProductPage u o =
      { title := "", images := [],
        error := some "URL must be https://mcfarlane.com/..." } := by
    intro o
    unfold fetchMcfarlaneProductPage
    rw [hu, if_pos (by rw [hal]; exact Bool.false_ne_true)]
  constructor
  · intro o
    unfold mcfarlaneProduct
    dsimp only
    rw [hu, if_neg hne, hfetch o, if_pos ⟨by decide, rfl⟩]
  · intro o1 o2
    unfold mcfarlaneProduct
    dsimp only
    rw [hu, if_neg hne, hfetch o1, hfetch o2, if_neg hne]

/-- Witness for `c6_bad_host_rejected_422` at a concrete off-host URL:
status 422, and the same response whether the (never-sent) fetch would have
succeeded or raised. -/
theorem c6_bad_host_rejected_422_witness :
    (mcfarlaneProduct "https://toddsstore.com/x" (.exn "boom")).1 = 422 ∧
    mcfarlaneProduct "https://toddsstore.com/x" (.exn "boom") =
      mcfarlaneProduct "https://toddsstore.com/x" (.ok "T" ["https://a/b.jpg"]) :=
  ⟨(c6_bad_host_rejected_422 "https://toddsstore.com/x" (by decide) (by decide)
      (by decide)).1 (.exn "boom"),
   (c6_bad_host_rejected_422 "https://toddsstore.com/x" (by decide) (by decide)
      (by decide)).2 (.exn "boom") (.ok "T" ["https://a/b.jpg"])⟩

/-- Claim C6 counterexample: a request with a URL outside the allow-listed host
is answered 422, not the claimed 400. -/
theorem c6_bad_host_status_not_400 :
    (mcfarlaneProduct "https://example.com/item" (.ok "T" ["https://a/i.jpg"])).1 = 422 ∧
    (mcfarlaneProduct "https://example.com/item" (.ok "T" ["https://a/i.jpg"])).1 ≠ 400 := by
  decide

/-! ## Claim C3 -/

/-- Claim C3: the Flash-identity guard is a hard exclusion that runs before
every inclusion branch (substring, token-overlap, fuzzy): no entry of the
ranked output can identify a different Flash than the query while carrying
neither token of the queried identity.  Stated for each of the three
identities: if the query names one (covering in particular a query naming
exactly that one) and an output title carries neither of that identity's
tokens, then that title names no other Flash identity either. -/
theorem c3_flash_disambiguation (query line : String) (fetched : Guide → List Fig)
    (r : Fig) (hr : r ∈ searchActionfigure411 query line fetched) :
    (hasJay (queryWords query) = true →
       hasJay (tokenize (lowerStr r.title)) = false →
       hasBarry (tokenize (lowerStr r.title)) = false ∧
         hasWally (tokenize (lowerStr r.title)) = false) ∧
    (hasBarry (queryWords query) = true →
       hasBarry (tokenize (lowerStr r.title)) = false →
       hasJay (tokenize (lowerStr r.title)) = false ∧
         hasWally (tokenize (lowerStr r.title)) = false) ∧
    (hasWally (queryWords query) = true →
       hasWally (tokenize (lowerStr r.title)) = false →
       hasJay (tokenize (lowerStr r.title)) = false ∧
         hasBarry (tokenize (lowerStr r.title)) = false) := by
  obtain ⟨f, g, hf, hstep, hrg⟩ := mem_searchActionfigure411 hr
  obtain ⟨ht, -, -, -, -, hw⟩ := includeStep_some hstep
  have htitle : r.title = f.title := by rw [hrg]; exact ht
  rw [htitle]
  exact wrongChar_false_spec hw

/-- Witness for `c3_flash_disambiguation`: the query `jay garrick` over a cache
holding a Jay Garrick and a Barry Allen figure; the Jay entry is in the output
and satisfies the disambiguation facts. -/
theorem c3_flash_disambiguation_witness :
    (hasJay (queryWords "jay garrick") = true →
       hasJay (tokenize (lowerStr sampleJay.title)) = false →
       hasBarry (tokenize (lowerStr sampleJay.title)) = false ∧
         hasWally (tokenize (lowerStr sampleJay.title)) = false) ∧
    (hasBarry (queryWords "jay garrick") = true →
       hasBarry (tokenize (lowerStr sampleJay.title)) = false →
       hasJay (tokenize (lowerStr sampleJay.title)) = false ∧
         hasWally (tokenize (lowerStr sampleJay.title)) = false) ∧
    (hasWally (queryWords "jay garrick") = true →
       hasWally (tokenize (lowerStr sampleJay.title)) = false →
       hasJay (tokenize (lowerStr sampleJay.title)) = false ∧
         hasBarry (tokenize (lowerStr sampleJay.title)) = false) :=
  c3_flash_disambiguation "jay garrick" ""
    (fun g => if g = Guide.multiverse then [sampleJay, sampleBarry] else [])
    sampleJay (by decide)

/-! ## Claim C4 -/

/-- Claim C4, amended: the survivors are sorted ascending (stably) by the tuple
the CODE computes — `(-storedMatchCount, 0 if full-match else 1, priority)`,
where `storedMatchCount` is the significant-query-token count for a full-phrase
substring match, the token-overlap count for an overlap match, and 1 for a
fuzzy head match — not by `-tokenOverlapCount` as claimed (see the
counterexample).  Conjuncts: the output is the stripped, 40-capped image of the
sorted survivor list; that list is sorted by the stored score; it is a
permutation of the survivors; sorting is stable (score-equal entries keep their
input order); and the claim's `Batman (Flashpoint)` example does hold. -/
theorem c4_rank_order (ql : String) (qws : List String) (figs : List Fig) :
    rankOutput ql qws figs
        = ((sortRanked (figs.filterMap (includeStep ql qws))).map stripInternal).take 40 ∧
    (sortRanked (figs.filterMap (includeStep ql qws))).Pairwise
        (fun a b => tripleLT (scoreOf b) (scoreOf a) = false) ∧
    (sortRanked (figs.filterMap (includeStep ql qws))).Perm
        (figs.filterMap (includeStep ql qws)) ∧
    (∀ s : Int × Int × Int,
        (sortRanked (figs.filterMap (includeStep ql qws))).filter
            (fun x => decide (scoreOf x = s))
          = (figs.filterMap (includeStep ql qws)).filter
              (fun x => decide (scoreOf x = s))) ∧
    (searchActionfigure411 "batman flashpoint" ""
        (fun g => if g = Guide.multiverse then [sampleFlashpoint, sampleBeyond]
                  else [])).map Fig.title
      = ["Batman (Flashpoint)", "Batman Beyond"] :=
  ⟨rfl, sortRanked_pairwise _, sortRanked_perm _, fun s => sortRanked_stable _ s,
   by decide⟩

/-- Claim C4 counterexample: query `batman flashpoint` over the candidates
`abatman flashpointy` (contains the full query as a substring but shares ZERO
tokens with it) and `Batman Beyond` (token overlap 1).  The claimed key
`(-tokenOverlapCount, full, priority)` gives `(0,0,1)` and `(-1,1,1)`, putting
`Batman Beyond` strictly first — but the code stores the significant-token
count 2 for the full match and returns `abatman flashpointy` first, so the
output is not sorted by the claimed tuple. -/
theorem c4_claimed_tuple_refuted :
    (searchActionfigure411 "batman flashpoint" ""
        (fun g => if g = Guide.multiverse then [sampleGlued, sampleBeyond]
                  else [])).map Fig.title
      = ["abatman flashpointy", "Batman Beyond"] ∧
    tripleLT
        (specScoreOf (stripStr (lowerStr "batman flashpoint"))
          (queryWords "batman flashpoint") { sampleBeyond with priority := some 1 })
        (specScoreOf (stripStr (lowerStr "batman flashpoint"))
          (queryWords "batman flashpoint") { sampleGlued with priority := some 1 })
      = true := by decide

/-! ## Claim C7 -/

/-- Claim C7: the final pass of `/api/search` keeps each `imageURL` at most
once (the output URL list is duplicate-free), keeps entries in merged order
(the output is a sublist of the merged input, so the survivor comes from
whichever source was merged first), and for every non-empty URL the kept
entries are exactly the first input occurrence of that URL. -/
theorem c7_final_dedup (rs : List Fig) :
    ((dedupByURL rs).map Fig.url).Nodup ∧
    (dedupByURL rs).Sublist rs ∧
    (∀ u : String, u ≠ "" →
        (dedupByURL rs).filter (fun r => decide (r.url = u))
          = (rs.filter (fun r => decide (r.url = u))).take 1) := by
  refine ⟨nodup_dedupByURLAux [] rs, sublist_dedupByURLAux [] rs, fun u hu => ?_⟩
  exact (filter_dedupByURLAux hu rs []).1 (by simp)

/-- Witness for `c7_final_dedup`: two entries with the same image URL but
different title/source; the kept entry is exactly the first one. -/
theorem c7_final_dedup_witness :
    (dedupByURL [sampleBatman, sampleBatmanDup]).filter
        (fun r => decide (r.url = "https://www.actionfigure411.com/dc/images/batman-1.jpg"))
      = ([sampleBatman, sampleBatmanDup].filter
          (fun r => decide (r.url = "https://www.actionfigure411.com/dc/images/batman-1.jpg"))).take 1 :=
  (c7_final_dedup [sampleBatman, sampleBatmanDup]).2.2
    "https://www.actionfigure411.com/dc/images/batman-1.jpg" (by decide)

/-! ## Claim C10 -/

/-- Claim C10: entries with empty `url` never survive either dedup pass — not
the per-catalog snapshot pass of `fetch_visual_guide`, nor the final URL pass
of `/api/search` that every returned result goes through; hence every search
result carries a non-empty URL. -/
theorem c10_results_have_urls (rs ps : List Fig) :
    (∀ r ∈ dedupByURL rs, r.url ≠ "") ∧ (∀ p ∈ dedupGuide ps, p.url ≠ "") :=
  ⟨fun _ hr => (mem_dedupByURLAux hr).1, fun _ hp => mem_dedupGuideAux hp⟩

/-- Witness for `c10_results_have_urls`: a merged list containing an entry in
the "image not yet resolved" state (empty URL) and a complete entry; the
complete entry survives and indeed has a non-empty URL (and the empty-URL entry
is not in the output at all). -/
theorem c10_results_have_urls_witness : sampleBatman.url ≠ "" :=
  (c10_results_have_urls [sampleNoImage, sampleBatman] []).1 sampleBatman (by decide)

/-! ## Claim C8 -/

/-- The strip pass never changes the externally visible fields of any cached
candidate (title, url, source, icon are preserved through tagging, inclusion
and stripping). -/
theorem rankPost_preserves_public (ql : String) (qws : List String)
    (figs : List Fig) :
    (rankPost ql qws figs).map (fun f => (f.title, f.url, f.source, f.sourceIcon))
      = figs.map (fun f => (f.title, f.url, f.source, f.sourceIcon)) := by
  unfold rankPost
  rw [List.map_map]
  apply List.map_congr_left
  intro f _
  by_cases hc : (includeStep ql qws f).isSome
  · simp [Function.comp, hc, stripInternal]
  · simp [Function.comp, hc]

/-- Claim C8, amended: every entry of the ranked OUTPUT is fully stripped of
the internal ranking keys, and the call never alters any cached entry's
external fields (title, url, source, icon).  But the ranker is NOT pure on its
inputs: it tags every shared candidate dict with `_priority`, and candidates
excluded from the output retain that key in the cache snapshot (see the
counterexample). -/
theorem c8_output_stripped_cache_public_kept :
    (∀ (query line : String) (fetched : Guide → List Fig) (r : Fig),
        r ∈ searchActionfigure411 query line fetched →
          r.priority = none ∧ r.matchCount = none ∧ r.fullMatch = none) ∧
    (∀ (query line : String) (fetched : Guide → List Fig) (g : Guide),
        (searchCachePost query line fetched g).map
            (fun f => (f.title, f.url, f.source, f.sourceIcon))
          = (fetched g).map (fun f => (f.title, f.url, f.source, f.sourceIcon))) := by
  constructor
  · intro query line fetched r hr
    obtain ⟨f, g, hf, hstep, hrg⟩ := mem_searchActionfigure411 hr
    rw [hrg]
    exact ⟨rfl, rfl, rfl⟩
  · intro query line fetched g
    unfold searchCachePost
    split
    · rfl
    · rw [rankPost_preserves_public, List.map_map]
      apply List.map_congr_left
      intro f _
      rfl

/-- Witness for `c8_output_stripped_cache_public_kept`: the Jay Garrick entry
returned for `jay garrick` carries no internal key. -/
theorem c8_output_stripped_witness :
    sampleJay.priority = none ∧ sampleJay.matchCount = none ∧
      sampleJay.fullMatch = none :=
  c8_output_stripped_cache_public_kept.1 "jay garrick" ""
    (fun g => if g = Guide.multiverse then [sampleJay] else []) sampleJay (by decide)

/-- Claim C8 counterexample: a candidate that matches nothing (`zzz` against
query `aaa bbb ccc`) is excluded from the output, yet after the call the
cached dict carries `_priority = 1` (it was `none` — key absent — before):
ranking does modify input candidate entries that live in the shared snapshot,
refuting the no-internal-field claim for excluded entries. -/
theorem c8_excluded_candidate_keeps_priority :
    (searchCachePost "aaa bbb ccc" ""
        (fun g => if g = Guide.multiverse then [sampleZzz] else [])
        Guide.multiverse).map Fig.priority = [some 1] ∧
    ((fun g : Guide => if g = Guide.multiverse then [sampleZzz] else [])
        Guide.multiverse).map Fig.priority = [none] := by decide
